import Mathlib

/-!
Verification of the Civicomfy chunked download engine
(`downloader/chunk_downloader.py`, class `ChunkDownloader`).

Each definition below is a shallow embedding of a method of the source:
pure computations become Lean functions; the effects of network and
filesystem calls are driven by explicit outcome values supplied by the
caller (an oracle enumerating what the remote server / OS did), so that
the control flow of the Python code is reproduced exactly.
-/

namespace Civicomfy

/-- A planned byte range, mirroring the tuples `(i, start_byte, end_byte)`
built in `ChunkDownloader.download` (end byte inclusive). -/
structure Segment where
  index : Nat
  startByte : Nat
  endByte : Nat
deriving Repr, DecidableEq

/-- Number of bytes a segment covers: `end_byte - start_byte + 1`. -/
def segLength (s : Segment) : Nat := s.endByte - s.startByte + 1

/-- The segment-calculation loop of `ChunkDownloader.download`
(`for i in range(self.num_connections): ...`), lines 460-476.
`remaining` is the number of loop iterations left (`numConnections - i`);
the loop breaks when `current_byte >= self.total_size` or when the
`start_byte <= end_byte < self.total_size` sanity check fails. -/
def planAux (totalSize segmentSize numConnections : Nat) :
    Nat → Nat → Nat → List Segment
  | 0, _, _ => []
  | remaining + 1, i, currentByte =>
    if totalSize ≤ currentByte then []
    else
      let startByte := currentByte
      let endByteRaw := min (currentByte + segmentSize - 1) (totalSize - 1)
      let endByte := if i = numConnections - 1 then totalSize - 1 else endByteRaw
      if startByte ≤ endByte ∧ endByte < totalSize then
        { index := i, startByte := startByte, endByte := endByte } ::
          planAux totalSize segmentSize numConnections remaining (i + 1) (endByte + 1)
      else []

/-- Segment planning of `ChunkDownloader.download`, lines 454-476:
`segment_size = total_size // num_connections`, replaced by `total_size`
when the integer division gives zero, then the planning loop. -/
def plan (totalSize numConnections : Nat) : List Segment :=
  let segmentSize0 := totalSize / numConnections
  let segmentSize := if segmentSize0 = 0 then totalSize else segmentSize0
  planAux totalSize segmentSize numConnections numConnections 0 0

/-- Closed form of the segments the loop produces when `c * s ≤ totalSize`:
segment `i` starts at `i * s`; every segment but the last ends at
`(i+1) * s - 1`, the last ends at `totalSize - 1`. -/
def expectedSegment (totalSize segmentSize numConnections i : Nat) : Segment :=
  if i = numConnections - 1 then
    { index := i, startByte := i * segmentSize, endByte := totalSize - 1 }
  else
    { index := i, startByte := i * segmentSize, endByte := (i + 1) * segmentSize - 1 }

example : plan 10 4 =
    [⟨0, 0, 1⟩, ⟨1, 2, 3⟩, ⟨2, 4, 5⟩, ⟨3, 6, 9⟩] := by decide

example : plan 10 1 = [⟨0, 0, 9⟩] := by decide

example : plan 3 7 = [⟨0, 0, 2⟩] := by decide

example : plan 0 4 = [] := by decide

theorem planAux_eq_map (t s c : Nat) (hs : 1 ≤ s) (hcs : c * s ≤ t) :
    ∀ (k i : Nat), i + k = c →
      planAux t s c k i (i * s) =
        (List.range' i k).map (expectedSegment t s c) := by
  intro k
  induction k with
  | zero => intro i _; rfl
  | succ k ih =>
    intro i hik
    have hi1c : i + 1 ≤ c := by omega
    have hmul1 : (i + 1) * s ≤ c * s := Nat.mul_le_mul_right s hi1c
    have hsucc : (i + 1) * s = i * s + s := Nat.succ_mul i s
    have hlt : i * s < t := by omega
    rw [planAux]
    rw [if_neg (by omega)]
    have hmin : min (i * s + s - 1) (t - 1) = i * s + s - 1 := by
      apply Nat.min_eq_left; omega
    by_cases hlast : i = c - 1
    · -- final segment: k = 0, end byte forced to t - 1
      have hk0 : k = 0 := by omega
      subst hk0
      simp only [hmin, if_pos hlast]
      rw [if_pos (by omega)]
      rw [planAux]
      have : List.range' i 1 = [i] := rfl
      rw [this]
      simp [expectedSegment, if_pos hlast]
    · -- non-final segment: end byte is (i+1)*s - 1, recurse
      simp only [hmin, if_neg hlast]
      rw [if_pos (by omega)]
      have hstep : i * s + s - 1 + 1 = (i + 1) * s := by omega
      rw [hstep, ih (i + 1) (by omega)]
      rw [List.range'_succ]
      simp only [List.map_cons, expectedSegment, if_neg hlast]
      have hend : i * s + s - 1 = (i + 1) * s - 1 := by omega
      rw [hend]

theorem plan_eq_map_of_le (t c : Nat) (hc : 1 ≤ c) (hct : c ≤ t) :
    plan t c = (List.range c).map (expectedSegment t (t / c) c) := by
  have hs : 1 ≤ t / c := (Nat.one_le_div_iff (by omega)).mpr hct
  have hcs : c * (t / c) ≤ t := by
    calc c * (t / c) = t / c * c := Nat.mul_comm c (t / c)
    _ ≤ t := Nat.div_mul_le_self t c
  have h := planAux_eq_map t (t / c) c hs hcs c 0 (by omega)
  rw [Nat.zero_mul] at h
  rw [plan]
  simp only [if_neg (by omega : ¬ t / c = 0)]
  rw [h, List.range_eq_range']

theorem plan_of_lt (t c : Nat) (ht : 1 ≤ t) (htc : t < c) :
    plan t c = [{ index := 0, startByte := 0, endByte := t - 1 }] := by
  have hs0 : t / c = 0 := Nat.div_eq_of_lt htc
  obtain ⟨c', rfl⟩ : ∃ c', c = c' + 2 := ⟨c - 2, by omega⟩
  have h1 : plan t (c' + 2) = planAux t t (c' + 2) (c' + 2) 0 0 := by
    unfold plan
    simp only [hs0, eq_self_iff_true, if_true]
  rw [h1, planAux]
  rw [if_neg (by omega : ¬ t ≤ 0)]
  have hmin : min (0 + t - 1) (t - 1) = t - 1 := by omega
  simp only [hmin]
  rw [if_neg (by omega : ¬ (0:Nat) = c' + 2 - 1)]
  rw [if_pos (by omega : 0 ≤ t - 1 ∧ t - 1 < t)]
  rw [show t - 1 + 1 = t by omega]
  rw [planAux]
  rw [if_pos (by omega : t ≤ t)]

theorem segLength_expected_nonfinal (t s c i : Nat) (hs : 1 ≤ s) (hi : i ≠ c - 1) :
    segLength (expectedSegment t s c i) = s := by
  unfold expectedSegment segLength
  rw [if_neg hi]
  dsimp only
  have hsucc : (i + 1) * s = i * s + s := Nat.succ_mul i s
  omega

theorem sum_map_const_range (n s : Nat) :
    ((List.range n).map (fun _ => s)).sum = n * s := by
  induction n with
  | zero => simp
  | succ n ih =>
    rw [List.range_succ, List.map_append, List.sum_append, ih]
    simp [Nat.succ_mul]

/-- C2: for every `totalSize ≥ 1` and `connections ≥ 1`, the segment
calculation produces segments that start at byte 0, are contiguous
(each start is the previous end plus one), pairwise non-overlapping,
whose lengths sum exactly to `totalSize`; every non-final segment has
length `totalSize / connections` and the last segment ends at
`totalSize - 1`. -/
theorem C2_segment_partition (t c : Nat) (ht : 1 ≤ t) (hc : 1 ≤ c) :
    plan t c ≠ [] ∧
    (plan t c).head?.map Segment.startByte = some 0 ∧
    List.Chain' (fun a b => b.startByte = a.endByte + 1) (plan t c) ∧
    List.Pairwise (fun a b => a.endByte < b.startByte ∨ b.endByte < a.startByte) (plan t c) ∧
    ((plan t c).map segLength).sum = t ∧
    (∀ j, j + 1 < (plan t c).length →
        segLength ((plan t c).getD j { index := 0, startByte := 0, endByte := 0 }) = t / c) ∧
    (plan t c).getLast?.map Segment.endByte = some (t - 1) := by
  rcases Nat.lt_or_ge t c with htc | hct
  · -- tiny file: a single whole-file segment
    rw [plan_of_lt t c ht htc]
    refine ⟨by simp, by simp, by simp, by simp, ?_, ?_, by simp⟩
    · simp only [List.map_cons, List.map_nil, List.sum_cons, List.sum_nil, segLength]
      omega
    · intro j hj
      simp only [List.length_cons, List.length_nil] at hj
      omega
  · -- c ≤ t: the loop yields the closed-form partition
    have hs : 1 ≤ t / c := (Nat.one_le_div_iff (by omega)).mpr hct
    have hcs : c * (t / c) ≤ t := by
      calc c * (t / c) = t / c * c := Nat.mul_comm c (t / c)
      _ ≤ t := Nat.div_mul_le_self t c
    rw [plan_eq_map_of_le t c hc hct]
    obtain ⟨c', rfl⟩ : ∃ c', c = c' + 1 := ⟨c - 1, by omega⟩
    set s := t / (c' + 1) with hsdef
    have hsucc : ∀ i : Nat, (i + 1) * s = i * s + s := fun i => Nat.succ_mul i s
    refine ⟨?_, ?_, ?_, ?_, ?_, ?_, ?_⟩
    · simp [List.range_succ]
    · -- first segment starts at 0
      rw [List.range_succ_eq_map]
      simp only [List.map_cons, List.head?_cons, Option.map_some']
      unfold expectedSegment
      split <;> simp
    · -- contiguity
      rw [List.chain'_map, List.chain'_range_succ]
      intro m hm
      have h1 : (expectedSegment t s (c' + 1) m).endByte = (m + 1) * s - 1 := by
        unfold expectedSegment
        rw [if_neg (by omega)]
      have h2 : (expectedSegment t s (c' + 1) (m + 1)).startByte = (m + 1) * s := by
        unfold expectedSegment
        split <;> rfl
      rw [h1, h2]
      have hpos : 0 < (m + 1) * s := Nat.mul_pos (by omega) (by omega)
      omega
    · -- non-overlap
      rw [List.pairwise_map]
      refine List.Pairwise.imp_of_mem ?_ (List.pairwise_lt_range (c' + 1))
      intro i j hi hj hij
      rw [List.mem_range] at hi hj
      left
      have h1 : (expectedSegment t s (c' + 1) i).endByte = (i + 1) * s - 1 := by
        unfold expectedSegment
        rw [if_neg (by omega)]
      have h2 : (expectedSegment t s (c' + 1) j).startByte = j * s := by
        unfold expectedSegment
        split <;> rfl
      rw [h1, h2]
      have hmono : (i + 1) * s ≤ j * s := Nat.mul_le_mul_right s (by omega)
      have hpos : 0 < (i + 1) * s := Nat.mul_pos (by omega) (by omega)
      omega
    · -- lengths sum to the total size
      rw [List.map_map, List.range_succ, List.map_append, List.sum_append]
      have hmap : (List.range c').map (segLength ∘ expectedSegment t s (c' + 1)) =
          (List.range c').map (fun _ => s) := by
        apply List.map_congr_left
        intro i hi
        rw [List.mem_range] at hi
        exact segLength_expected_nonfinal t s (c' + 1) i hs (by omega)
      rw [hmap, sum_map_const_range]
      simp only [List.map_cons, List.map_nil, List.sum_cons, List.sum_nil, Function.comp]
      unfold expectedSegment segLength
      rw [if_pos (by omega)]
      dsimp only
      have hc's : c' * s + s ≤ t := by
        have := hsucc c'
        omega
      omega
    · -- every non-final segment has length t / c
      intro j hj
      rw [List.length_map, List.length_range] at hj
      have hget : ((List.range (c' + 1)).map (expectedSegment t s (c' + 1))).getD j
          { index := 0, startByte := 0, endByte := 0 } = expectedSegment t s (c' + 1) j := by
        rw [List.getD_eq_getElem?_getD, List.getElem?_map, List.getElem?_range (by omega)]
        rfl
      rw [hget]
      exact segLength_expected_nonfinal t s (c' + 1) j hs (by omega)
    · -- the last segment ends at t - 1
      rw [List.range_succ, List.map_append]
      simp only [List.map_cons, List.map_nil]
      rw [List.getLast?_concat]
      simp only [Option.map_some']
      unfold expectedSegment
      rw [if_pos (by omega)]

/-- Threshold constant `MIN_SIZE_FOR_MULTI_MB` of `ChunkDownloader.download`. -/
def MIN_SIZE_FOR_MULTI_MB : Nat := 10

/-- The `use_multi_connection` strategy guard of `ChunkDownloader.download`,
lines 423-428: ranges supported, more than one connection, known positive
total size above the minimum-size threshold. -/
def use_multi_connection (supportsRanges : Bool) (numConnections totalSize : Nat) : Bool :=
  supportsRanges && decide (1 < numConnections) && decide (0 < totalSize) &&
    decide (MIN_SIZE_FOR_MULTI_MB * 1024 * 1024 < totalSize)

theorem plan_zero (c : Nat) : plan 0 c = [] := by
  have h : plan 0 c = planAux 0 0 c c 0 0 := by
    unfold plan
    simp
  rw [h]
  cases c with
  | zero => rfl
  | succ c' =>
    rw [planAux]
    rw [if_pos (Nat.le_refl 0)]

theorem plan_eq_nil_iff (t c : Nat) (hc : 1 ≤ c) : plan t c = [] ↔ t = 0 := by
  constructor
  · intro h
    by_contra ht0
    have ht : 1 ≤ t := by omega
    rcases Nat.lt_or_ge t c with htc | hct
    · rw [plan_of_lt t c ht htc] at h
      exact absurd h (by simp)
    · rw [plan_eq_map_of_le t c hc hct] at h
      rw [List.map_eq_nil_iff, List.range_eq_nil] at h
      omega
  · intro h
    subst h
    exact plan_zero c

/-- C7 counterexample: called with connections = 1 and totalSize = 10, the
segment calculation returns one whole-file segment, not the empty list. -/
theorem C7_counterexample :
    plan 10 1 = [{ index := 0, startByte := 0, endByte := 9 }] ∧ plan 10 1 ≠ [] := by
  decide

/-- C7 (amended): the segment calculation returns no segments iff
`totalSize = 0`; for `connections = 1` with `totalSize ≥ 1` it instead
returns a single whole-file segment, and the caller falls back to
single-connection mode in those cases because the `use_multi_connection`
strategy guard requires more than one connection and a known positive
size, not because the planner returned no segments. -/
theorem C7_planner_empty_conditions (t c : Nat) (hc : 1 ≤ c) :
    (plan t c = [] ↔ t = 0) ∧
    (∀ r : Bool, c ≤ 1 ∨ t = 0 → use_multi_connection r c t = false) ∧
    (1 ≤ t → c = 1 → plan t c = [{ index := 0, startByte := 0, endByte := t - 1 }]) := by
  refine ⟨plan_eq_nil_iff t c hc, ?_, ?_⟩
  · intro r hr
    unfold use_multi_connection
    rcases hr with h | h
    · have h1 : ¬ (1 < c) := by omega
      simp [h1]
    · subst h
      simp
  · intro ht hc1
    subst hc1
    rw [plan_eq_map_of_le t 1 (by omega) (by omega)]
    rw [show List.range 1 = [0] from by decide, List.map_cons, List.map_nil]
    unfold expectedSegment
    simp

/-- Witness for C7 at totalSize = 10, connections = 1. -/
theorem C7_witness :
    (plan 10 1 = [] ↔ (10 : Nat) = 0) ∧
    use_multi_connection true 1 10 = false ∧
    plan 10 1 = [{ index := 0, startByte := 0, endByte := 9 }] :=
  ⟨(C7_planner_empty_conditions 10 1 (by decide)).1,
   (C7_planner_empty_conditions 10 1 (by decide)).2.1 true (Or.inl (by decide)),
   (C7_planner_empty_conditions 10 1 (by decide)).2.2 (by decide) rfl⟩

/-- Witness for C2 at totalSize = 10, connections = 4. -/
theorem C2_witness :
    plan 10 4 ≠ [] ∧
    ((plan 10 4).map segLength).sum = 10 ∧
    (plan 10 4).getLast?.map Segment.endByte = some 9 :=
  ⟨(C2_segment_partition 10 4 (by decide) (by decide)).1,
   (C2_segment_partition 10 4 (by decide) (by decide)).2.2.2.2.1,
   (C2_segment_partition 10 4 (by decide) (by decide)).2.2.2.2.2.2⟩

/-- Mutable job state shared between `ChunkDownloader` methods: the
cancellation event and the recorded error string. -/
structure JobState where
  cancelled : Bool
  error : Option String
deriving Repr, DecidableEq

/-- `ChunkDownloader.cancel`, lines 70-78: if the job is not already
cancelled, set the cancellation event and assign
`"Download cancelled by user"` to `self.error`; the assignment is
unconditional in that branch, replacing any error already recorded.
Already-cancelled jobs are left untouched. -/
def cancel (s : JobState) : JobState :=
  if s.cancelled then s
  else { cancelled := true, error := some "Download cancelled by user" }

/-- C4: code-bug evaluation. The first conjunct shows `cancel` invoked on
a job that already holds a segment error: the error is overwritten by
the default message, contradicting the claim that a pre-existing error
is preserved. The second conjunct shows the monotonic half of the claim:
on an already-cancelled job `cancel` changes nothing, so the flag is
never cleared. -/
theorem C4_cancel_overwrites_prior_error :
    cancel { cancelled := false, error := some "Segment 0 failed (Try 3/3): timeout" }
      = { cancelled := true, error := some "Download cancelled by user" } ∧
    cancel { cancelled := true, error := some "Segment 0 failed (Try 3/3): timeout" }
      = { cancelled := true, error := some "Segment 0 failed (Try 3/3): timeout" } := by
  decide

/-- Filesystem footprint of one download job: whether the temp part
directory and the final output file currently exist. -/
structure FsState where
  tempDirExists : Bool
  outputFileExists : Bool
deriving Repr, DecidableEq

/-- `ChunkDownloader._cleanup_temp`, lines 80-95: remove the temp
directory if it exists; when `success` is false, also remove the output
file if it exists. -/
def cleanup_temp (success : Bool) (fs : FsState) : FsState :=
  let fs1 := if fs.tempDirExists then { fs with tempDirExists := false } else fs
  if !success && fs1.outputFileExists then { fs1 with outputFileExists := false } else fs1

/-- Start of `ChunkDownloader.download`, lines 407-410: if a leftover temp
directory exists from a previous run, `_cleanup_temp(success=False)` is
invoked before probing, which also deletes whatever file is at the final
output path. -/
def startup_cleanup (fs : FsState) : FsState :=
  if fs.tempDirExists then cleanup_temp false fs else fs

/-- C9: starting a job while a leftover temp directory exists at the
job's temp path removes both that temp directory and any file already
present at the final output path, even a complete artifact of an
earlier successful download. -/
theorem C9_leftover_temp_removes_output (fs : FsState) (h : fs.tempDirExists = true) :
    (startup_cleanup fs).tempDirExists = false ∧
    (startup_cleanup fs).outputFileExists = false := by
  obtain ⟨td, out⟩ := fs
  cases td
  · exact Bool.noConfusion h
  · cases out <;> decide

/-- Witness for C9: a leftover temp directory next to a complete output
file from an earlier successful run. -/
theorem C9_witness :
    ({ tempDirExists := true, outputFileExists := true } : FsState).tempDirExists = true ∧
    ((startup_cleanup { tempDirExists := true, outputFileExists := true }).tempDirExists = false ∧
     (startup_cleanup { tempDirExists := true, outputFileExists := true }).outputFileExists = false) :=
  ⟨rfl, C9_leftover_temp_removes_output { tempDirExists := true, outputFileExists := true } rfl⟩

/-- ASCII lowercasing of one character, modelling Python `str.lower` on
the header values involved (all ASCII). -/
def lowerChar (ch : Char) : Char :=
  if 65 ≤ ch.toNat ∧ ch.toNat ≤ 90 then Char.ofNat (ch.toNat + 32) else ch

/-- ASCII lowercasing of a string (Python `str.lower`). -/
def lowerStr (str : String) : String := ⟨str.data.map lowerChar⟩

/-- Outcome of the HEAD request issued by
`ChunkDownloader._get_range_support_and_url`: the request either times
out, raises a `RequestException` (which includes every non-2xx status
via `raise_for_status`), raises any other exception, or succeeds with a
final post-redirect URL, an optional `Accept-Ranges` header value and a
Content-Length (0 when that header is missing). -/
inductive HeadOutcome where
  | timeout (detail : String)
  | requestError (detail : String)
  | otherError (detail : String)
  | success (finalUrl : String) (acceptRanges : Option String) (contentLength : Nat)
deriving Repr, DecidableEq

/-- Result of the probe: the URL used from now on, the range-support
flag, the possibly updated total size, the possibly updated error. -/
structure ProbeResult where
  url : String
  supportsRanges : Bool
  totalSize : Nat
  error : Option String
deriving Repr, DecidableEq

/-- `ChunkDownloader._get_range_support_and_url`, lines 97-158. Every
exception is caught inside the method, so the embedding is a total
function of the outcome: nothing propagates to the caller. On failure
the original URL is returned with no range support; on success, range
support holds iff the lowercased `Accept-Ranges` value (default
`"none"`) equals `"bytes"`, and a zero total size is replaced by a
positive Content-Length. The `RequestException` branch leaves the error
field unchanged (the assignment in the source is commented out). -/
def get_range_support_and_url (initialUrl : String) (totalSize : Nat) (err : Option String)
    (outcome : HeadOutcome) : ProbeResult :=
  match outcome with
  | .timeout detail =>
      { url := initialUrl, supportsRanges := false, totalSize := totalSize,
        error := some ("HEAD request timed out (25s) checking range support: " ++ detail) }
  | .requestError _ =>
      { url := initialUrl, supportsRanges := false, totalSize := totalSize, error := err }
  | .otherError detail =>
      { url := initialUrl, supportsRanges := false, totalSize := totalSize,
        error := some ("Unexpected error during HEAD request: " ++ detail) }
  | .success finalUrl acceptRanges contentLength =>
      let acceptRangesVal := lowerStr (acceptRanges.getD "none")
      let newTotal := if totalSize = 0 && decide (0 < contentLength) then contentLength else totalSize
      { url := finalUrl, supportsRanges := acceptRangesVal == "bytes",
        totalSize := newTotal, error := err }

/-- C5 counterexample: a server answering `Accept-Ranges: Bytes`
(capitalised) yields supportsRanges = true although the header value
does not equal the byte-unit token "bytes". -/
theorem C5_counterexample :
    (get_range_support_and_url "http://a" 0 none
        (.success "http://b" (some "Bytes") 0)).supportsRanges = true ∧
    ("Bytes" : String) ≠ "bytes" := by
  decide

/-- C5 (amended): the probe never raises to its caller (it is a total
function of the request outcome); on timeout, request error (including
any non-2xx status) or any other exception it returns the original URL
with supportsRanges = false; on success, supportsRanges is true iff the
Accept-Ranges header value, lowercased as Python `str.lower` does,
equals "bytes" — a missing header (defaulted to "none") or any other
value yields false. -/
theorem C5_probe_behavior (u : String) (t : Nat) (err : Option String) (outcome : HeadOutcome) :
    (get_range_support_and_url u t err outcome).url =
      (match outcome with
       | .success finalUrl _ _ => finalUrl
       | _ => u) ∧
    (get_range_support_and_url u t err outcome).supportsRanges =
      (match outcome with
       | .success _ acceptRanges _ => lowerStr (acceptRanges.getD "none") == "bytes"
       | _ => false) := by
  cases outcome <;> exact ⟨rfl, rfl⟩

/-- Witness for C5: a successful probe whose final URL differs from the
original and whose server advertises `Accept-Ranges: bytes`. -/
theorem C5_witness :
    (get_range_support_and_url "http://a" 0 none (.success "http://b" (some "bytes") 7)).url
      = "http://b" ∧
    (get_range_support_and_url "http://a" 0 none (.success "http://b" (some "bytes") 7)).supportsRanges
      = (lowerStr ((some "bytes").getD "none") == "bytes") :=
  C5_probe_behavior "http://a" 0 none (.success "http://b" (some "bytes") 7)

/-- One status update sent to the manager from the `finally` block of
`ChunkDownloader.download` (progress and speed as exact rationals). -/
structure StatusSnapshot where
  status : String
  progress : Rat
  speed : Rat
  error : Option String
  connectionType : String
deriving Repr, DecidableEq

/-- Terminal status computed at line 570:
`"completed" if success else ("cancelled" if self.is_cancelled else "failed")`. -/
def final_status (success cancelled : Bool) : String :=
  if success then "completed" else if cancelled then "cancelled" else "failed"

/-- Final progress computed at lines 572-576:
`100.0 if success else (self.total_size > 0 and (self.downloaded / self.total_size * 100)) or 0`,
then capped via `min(100.0, final_progress)`. (Python's `x or 0` turns a
product of `0.0` into `0`; the two coincide, so the truthiness detour is
dropped.) -/
def final_progress (success : Bool) (downloaded totalSize : Nat) : Rat :=
  let raw := if success then (100 : Rat)
    else if 0 < totalSize then (downloaded : Rat) / (totalSize : Rat) * 100 else 0
  min 100 raw

/-- The `finally` block of `ChunkDownloader.download`, lines 562-580:
`_cleanup_temp(success)`, then exactly one final status update carrying
the terminal status, the capped final progress, speed 0, the recorded
error and the connection type. -/
def finalize_download (success cancelled : Bool) (downloaded totalSize : Nat)
    (error : Option String) (connectionType : String) (fs : FsState) :
    FsState × StatusSnapshot :=
  (cleanup_temp success fs,
   { status := final_status success cancelled,
     progress := final_progress success downloaded totalSize,
     speed := 0,
     error := error,
     connectionType := connectionType })

/-- C3: on every terminal outcome the temp directory is removed; the
output file survives exactly when the outcome is `completed` (and it
existed); the single final snapshot carries speed 0, the recorded error,
the terminal status, and progress 100 on success or the last-known
percentage (capped at 100, 0 when the size is unknown) otherwise. -/
theorem C3_exit_actions (success cancelled : Bool) (downloaded totalSize : Nat)
    (error : Option String) (connectionType : String) (fs : FsState) :
    (finalize_download success cancelled downloaded totalSize error connectionType fs).1.tempDirExists
      = false ∧
    (finalize_download success cancelled downloaded totalSize error connectionType fs).1.outputFileExists
      = (success && fs.outputFileExists) ∧
    (finalize_download success cancelled downloaded totalSize error connectionType fs).2.speed = 0 ∧
    (finalize_download success cancelled downloaded totalSize error connectionType fs).2.error
      = error ∧
    (finalize_download success cancelled downloaded totalSize error connectionType fs).2.status
      = (if success then "completed" else if cancelled then "cancelled" else "failed") ∧
    (finalize_download success cancelled downloaded totalSize error connectionType fs).2.progress
      = (if success then (100 : Rat)
         else min 100 (if 0 < totalSize then (downloaded : Rat) / (totalSize : Rat) * 100 else 0)) := by
  obtain ⟨td, out⟩ := fs
  refine ⟨?_, ?_, rfl, rfl, rfl, ?_⟩
  · cases td <;> cases out <;> cases success <;> rfl
  · cases td <;> cases out <;> cases success <;> rfl
  · unfold finalize_download final_progress
    cases success
    · rfl
    · dsimp only
      simp

/-- Witness for C3: a failed (not cancelled) job that downloaded 50 of
200 bytes with a recorded error and a pre-existing output file. -/
theorem C3_witness :
    (finalize_download false false 50 200 (some "boom") "Multi (4)" { tempDirExists := true, outputFileExists := true }).1.tempDirExists = false ∧
    (finalize_download false false 50 200 (some "boom") "Multi (4)" { tempDirExists := true, outputFileExists := true }).1.outputFileExists = false ∧
    (finalize_download false false 50 200 (some "boom") "Multi (4)" { tempDirExists := true, outputFileExists := true }).2.speed = 0 ∧
    (finalize_download false false 50 200 (some "boom") "Multi (4)" { tempDirExists := true, outputFileExists := true }).2.error = some "boom" ∧
    (finalize_download false false 50 200 (some "boom") "Multi (4)" { tempDirExists := true, outputFileExists := true }).2.status = "failed" ∧
    (finalize_download false false 50 200 (some "boom") "Multi (4)" { tempDirExists := true, outputFileExists := true }).2.progress
      = min 100 (((50 : Nat) : Rat) / ((200 : Nat) : Rat) * 100) :=
  C3_exit_actions false false 50 200 (some "boom") "Multi (4)"
    { tempDirExists := true, outputFileExists := true }

/-- State of the progress aggregator inside `ChunkDownloader`:
`self.downloaded`, `self.total_size`, `self._last_update_time`,
`self._last_downloaded_bytes` and `self._speed` (times in seconds as
rationals). -/
structure ProgressState where
  downloaded : Nat
  totalSize : Nat
  lastUpdateTime : Rat
  lastDownloadedBytes : Nat
  speed : Rat
deriving Repr, DecidableEq

/-- `STATUS_UPDATE_INTERVAL = 0.5` seconds. -/
def STATUS_UPDATE_INTERVAL : Rat := 1 / 2

/-- A progress notification handed to the manager by `_update_progress`. -/
structure ProgressNotification where
  progress : Rat
  speed : Rat
deriving Repr, DecidableEq

/-- `ChunkDownloader._update_progress`, lines 160-192 (the body of the
`with self.lock` block): add the chunk length to the byte counter; when
the update interval has elapsed or the byte counter just reached the
total size, recompute progress and speed, remember the notification
time and byte count, and notify the manager. -/
def update_progress (s : ProgressState) (chunkLen : Nat) (currentTime : Rat) :
    ProgressState × Option ProgressNotification :=
  let downloaded := s.downloaded + chunkLen
  let timeDiff := currentTime - s.lastUpdateTime
  if timeDiff ≥ STATUS_UPDATE_INTERVAL ∨ downloaded = s.totalSize then
    let progress : Rat :=
      if 0 < s.totalSize then min ((downloaded : Rat) / (s.totalSize : Rat) * 100) 100 else 0
    let speed := if 0 < timeDiff
      then ((downloaded : Rat) - (s.lastDownloadedBytes : Rat)) / timeDiff
      else s.speed
    ({ s with downloaded := downloaded, lastUpdateTime := currentTime,
              lastDownloadedBytes := downloaded, speed := speed },
     some { progress := progress, speed := speed })
  else
    ({ s with downloaded := downloaded }, none)

/-- C8: whenever `_update_progress` emits a notification, the reported
percentage is `min(downloaded/total*100, 100)` when the total size is
positive and 0 when the total is unknown; and whenever time has elapsed
since the previous notification, the reported speed is the absolute byte
delta since that notification divided by the elapsed time. -/
theorem C8_progress_notification (s : ProgressState) (chunkLen : Nat) (currentTime : Rat)
    (n : ProgressNotification)
    (h : (update_progress s chunkLen currentTime).2 = some n) :
    n.progress = (if 0 < s.totalSize
        then min ((((s.downloaded + chunkLen : Nat)) : Rat) / (s.totalSize : Rat) * 100) 100
        else 0) ∧
    (0 < currentTime - s.lastUpdateTime →
      n.speed = ((((s.downloaded + chunkLen : Nat)) : Rat) - ((s.lastDownloadedBytes : Nat) : Rat))
          / (currentTime - s.lastUpdateTime)) := by
  unfold update_progress at h
  by_cases hcond : currentTime - s.lastUpdateTime ≥ STATUS_UPDATE_INTERVAL
      ∨ s.downloaded + chunkLen = s.totalSize
  · rw [if_pos hcond] at h
    dsimp only at h
    injection h with h
    subst h
    refine ⟨rfl, ?_⟩
    intro hp
    dsimp only
    rw [if_pos hp]
  · rw [if_neg hcond] at h
    exact Option.noConfusion h

/-- Witness for C8: 50 bytes arrive at time 1 s (interval elapsed) with
total size 100: the notification reports 50 percent and 50 bytes/s. -/
theorem C8_witness :
    (update_progress { downloaded := 0, totalSize := 100, lastUpdateTime := 0, lastDownloadedBytes := 0, speed := 0 } 50 1).2
      = some { progress := 50, speed := 50 } ∧
    ({ progress := 50, speed := 50 } : ProgressNotification).progress
      = (if 0 < (100 : Nat)
         then min ((((0 + 50 : Nat)) : Rat) / ((100 : Nat) : Rat) * 100) 100
         else 0) ∧
    (0 < (1 : Rat) - 0 →
      ({ progress := 50, speed := 50 } : ProgressNotification).speed
        = ((((0 + 50 : Nat)) : Rat) - (((0 : Nat)) : Rat)) / ((1 : Rat) - 0)) := by
  have hsome : (update_progress { downloaded := 0, totalSize := 100, lastUpdateTime := 0, lastDownloadedBytes := 0, speed := 0 } 50 1).2 = some { progress := 50, speed := 50 } := by
    unfold update_progress
    norm_num [STATUS_UPDATE_INTERVAL]
  have happ := C8_progress_notification
      { downloaded := 0, totalSize := 100, lastUpdateTime := 0, lastDownloadedBytes := 0, speed := 0 }
      50 1 { progress := 50, speed := 50 } hsome
  exact ⟨hsome, happ.1, happ.2⟩

/-- A part file as the merge step sees it: its segment index and, when
it exists on disk, its size in bytes (`none` = missing). -/
structure PartFile where
  index : Nat
  size : Option Nat
deriving Repr, DecidableEq

/-- The integrity error recorded at lines 305-307. -/
def merge_size_error (finalSize totalSize : Nat) : String :=
  "Merged size (" ++ toString finalSize ++ ") differs significantly from expected ("
    ++ toString totalSize ++ "). File may be corrupt."

/-- `ChunkDownloader.merge_parts`, lines 270-317, as a function of the
part files on disk, the expected total, the cancellation flag and the
current error field; returns the method's boolean result paired with
the updated error. Parts are sorted by index; a missing part aborts the
merge (silently when cancellation explains it, as a caught
`FileNotFoundError` otherwise); after concatenation the output size
(the sum of the part sizes) must match the expected total to within 1
byte whenever that total is known and positive. -/
def merge_parts (partFiles : List PartFile) (totalSize : Nat) (cancelled : Bool)
    (err : Option String) : Bool × Option String :=
  if partFiles = [] then
    if cancelled then (false, some (err.getD "Cancelled before any parts downloaded."))
    else (false, some "No part files found to merge.")
  else
    let sortedParts := partFiles.mergeSort (fun a b => decide (a.index ≤ b.index))
    match sortedParts.find? (fun p => p.size == none) with
    | some missing =>
        if cancelled then (false, some (err.getD "Cancelled during download, merge aborted."))
        else (false, some ("Failed to merge parts: missing part file part_" ++ toString missing.index))
    | none =>
        let finalSize : Nat := (sortedParts.map (fun p => p.size.getD 0)).sum
        if 0 < totalSize ∧ 1 < ((finalSize : Int) - (totalSize : Int)).natAbs then
          (false, some (merge_size_error finalSize totalSize))
        else (true, err)

/-- Total number of bytes held by a list of part files (the size the
merged output file has, since merging concatenates the parts). -/
def partsTotal (partFiles : List PartFile) : Nat :=
  (partFiles.map (fun p => p.size.getD 0)).sum

theorem merge_parts_run (partFiles : List PartFile) (totalSize : Nat) (err : Option String)
    (hne : partFiles ≠ []) (hall : ∀ p ∈ partFiles, p.size ≠ none) :
    merge_parts partFiles totalSize false err =
      (if 0 < totalSize ∧
          1 < (((partsTotal partFiles : Nat) : Int) - (totalSize : Int)).natAbs then
        (false, some (merge_size_error (partsTotal partFiles) totalSize))
      else (true, err)) := by
  have hperm : List.Perm (partFiles.mergeSort (fun a b => decide (a.index ≤ b.index))) partFiles :=
    List.mergeSort_perm partFiles _
  have hfind : (partFiles.mergeSort (fun a b => decide (a.index ≤ b.index))).find?
      (fun p => p.size == none) = none := by
    rw [List.find?_eq_none]
    intro p hp
    have hmem : p ∈ partFiles := hperm.mem_iff.mp hp
    have hps := hall p hmem
    cases hsz : p.size with
    | none => exact absurd hsz hps
    | some v => simp [hsz]
  have hsum : ((partFiles.mergeSort (fun a b => decide (a.index ≤ b.index))).map
      (fun p => p.size.getD 0)).sum = partsTotal partFiles :=
    (hperm.map (fun p => p.size.getD 0)).sum_eq
  unfold merge_parts
  rw [if_neg hne]
  dsimp only
  rw [hfind, hsum]

/-- C6: merging part files that are all present (at least one) against a
known positive expected total: if the sum of the part sizes deviates
from the total by more than 1 byte, the merge returns false and records
the size-mismatch integrity error, so the job cannot end `completed`; a
deviation of at most 1 byte is tolerated as success. -/
theorem C6_merge_size_tolerance (partFiles : List PartFile) (totalSize : Nat)
    (err : Option String)
    (hne : partFiles ≠ []) (hall : ∀ p ∈ partFiles, p.size ≠ none) (ht : 0 < totalSize) :
    (1 < (((partsTotal partFiles : Nat) : Int) - (totalSize : Int)).natAbs →
      merge_parts partFiles totalSize false err
        = (false, some (merge_size_error (partsTotal partFiles) totalSize)) ∧
      final_status (merge_parts partFiles totalSize false err).1 false ≠ "completed") ∧
    ((((partsTotal partFiles : Nat) : Int) - (totalSize : Int)).natAbs ≤ 1 →
      merge_parts partFiles totalSize false err = (true, err)) := by
  have hrun := merge_parts_run partFiles totalSize err hne hall
  constructor
  · intro hgt
    rw [hrun, if_pos ⟨ht, hgt⟩]
    refine ⟨rfl, ?_⟩
    show final_status false false ≠ "completed"
    decide
  · intro hle
    rw [hrun, if_neg (by omega)]

/-- Witness for C6: two parts of 5 and 10 bytes against an expected
total of 20 bytes (deviation 5 > 1): merge fails with the integrity
error and the outcome is not `completed`. -/
theorem C6_witness :
    merge_parts [{ index := 0, size := some 5 }, { index := 1, size := some 10 }] 20 false none
      = (false, some (merge_size_error 15 20)) ∧
    final_status (merge_parts [{ index := 0, size := some 5 }, { index := 1, size := some 10 }] 20 false none).1 false
      ≠ "completed" :=
  (C6_merge_size_tolerance
      [{ index := 0, size := some 5 }, { index := 1, size := some 10 }] 20 none
      (by decide) (by decide) (by decide)).1 (by decide)

/-- Outcome of the single GET request of
`ChunkDownloader.fallback_download`. The two error constructors model
failures raised before the output file is written (connection errors
and non-2xx statuses from `raise_for_status`); `streamed` carries the
Content-Length reported by the GET (0 when missing), the sizes of the
chunks received, and `interruptedAt = some k` when the cancellation
flag was observed before writing chunk `k`. -/
inductive FallbackOutcome where
  | requestError (detail : String)
  | otherError (detail : String)
  | streamed (contentLength : Nat) (chunks : List Nat) (interruptedAt : Option Nat)
deriving Repr, DecidableEq

/-- Result of `fallback_download`: the method's boolean return value and
the updated total size, byte counter, error field and output-file
presence. -/
structure FallbackResult where
  success : Bool
  totalSize : Nat
  downloaded : Nat
  error : Option String
  outputFileCreated : Bool
deriving Repr, DecidableEq

/-- The size-mismatch warning recorded at lines 373-375. -/
def fallback_mismatch_error (expected got : Nat) : String :=
  "Fallback download size mismatch. Expected " ++ toString expected ++ ", got "
    ++ toString got ++ "."

/-- `ChunkDownloader.fallback_download`, lines 319-398: one streamed GET
written straight to the output path. An unknown total size (0) is
replaced by a positive Content-Length from the GET. After a stream that
ends without exception, a byte count differing from a known positive
total size only records the mismatch message in `self.error` and the
method still returns `True` ("Don't automatically fail, but log
warning", lines 376-377). Cancellation mid-stream returns `False`,
leaving cleanup to the caller. -/
def fallback_download (totalSize0 : Nat) (err : Option String) (outcome : FallbackOutcome) :
    FallbackResult :=
  match outcome with
  | .requestError detail =>
      { success := false, totalSize := totalSize0, downloaded := 0,
        error := some ("Fallback download RequestException: " ++ detail),
        outputFileCreated := false }
  | .otherError detail =>
      { success := false, totalSize := totalSize0, downloaded := 0,
        error := some ("Fallback download failed with unexpected error: " ++ detail),
        outputFileCreated := false }
  | .streamed contentLength chunks interruptedAt =>
      let totalSize := if totalSize0 = 0 then contentLength else totalSize0
      match interruptedAt with
      | some k =>
          { success := false, totalSize := totalSize, downloaded := (chunks.take k).sum,
            error := err, outputFileCreated := true }
      | none =>
          let downloaded : Nat := chunks.sum
          let newErr := if 0 < totalSize ∧ downloaded ≠ totalSize
            then some (fallback_mismatch_error totalSize downloaded) else err
          { success := true, totalSize := totalSize, downloaded := downloaded,
            error := newErr, outputFileCreated := true }

/-- C10: a fallback download whose stream ends without exception but
whose byte count differs from the known positive total size still
returns success; fed into the terminal step, the job ends `completed`
and the output file is preserved, while the size-mismatch message sits
in the job's error field. -/
theorem C10_fallback_mismatch_completes (totalSize0 : Nat) (err : Option String)
    (contentLength : Nat) (chunks : List Nat)
    (ht : 0 < totalSize0) (hne : chunks.sum ≠ totalSize0) :
    (fallback_download totalSize0 err (.streamed contentLength chunks none)).success = true ∧
    (fallback_download totalSize0 err (.streamed contentLength chunks none)).error
      = some (fallback_mismatch_error totalSize0 chunks.sum) ∧
    final_status true false = "completed" ∧
    (finalize_download true false chunks.sum totalSize0
        (some (fallback_mismatch_error totalSize0 chunks.sum)) "Single"
        { tempDirExists := false, outputFileExists := true }).1.outputFileExists = true ∧
    (finalize_download true false chunks.sum totalSize0
        (some (fallback_mismatch_error totalSize0 chunks.sum)) "Single"
        { tempDirExists := false, outputFileExists := true }).2.status = "completed" := by
  have ht0 : ¬ totalSize0 = 0 := by omega
  unfold fallback_download
  dsimp only
  rw [if_neg ht0]
  rw [if_pos ⟨ht, hne⟩]
  exact ⟨rfl, rfl, rfl, rfl, rfl⟩

/-- Witness for C10: expected 100 bytes, the stream delivered 60. -/
theorem C10_witness :
    (fallback_download 100 none (.streamed 0 [30, 30] none)).success = true ∧
    (fallback_download 100 none (.streamed 0 [30, 30] none)).error
      = some (fallback_mismatch_error 100 60) ∧
    final_status true false = "completed" ∧
    (finalize_download true false 60 100 (some (fallback_mismatch_error 100 60)) "Single"
        { tempDirExists := false, outputFileExists := true }).1.outputFileExists = true ∧
    (finalize_download true false 60 100 (some (fallback_mismatch_error 100 60)) "Single"
        { tempDirExists := false, outputFileExists := true }).2.status = "completed" :=
  C10_fallback_mismatch_completes 100 none 0 [30, 30] (by decide) (by decide)

/-- Outcome of one attempt of `ChunkDownloader.download_segment`:
success, a retryable failure (any `RequestException` other than a 416
response, or the size-mismatch `ValueError`), a 416
Range-Not-Satisfiable response, or any other exception. -/
inductive AttemptOutcome where
  | ok
  | retryable (detail : String)
  | rangeNotSatisfiable (detail : String)
  | critical (detail : String)
deriving Repr, DecidableEq

/-- The error message formatted at line 249. -/
def segment_fail_msg (segmentIndex currentTry retries : Nat) (detail : String) : String :=
  "Segment " ++ toString segmentIndex ++ " failed (Try " ++ toString currentTry ++ "/"
    ++ toString retries ++ "): " ++ detail

/-- The retry loop of `ChunkDownloader.download_segment`, lines 200-268,
acting on the shared cancellation/error state; `outcomes` enumerates
what each successive attempt did. A retryable failure increments the
try counter; when it reaches `retries` (3 in the source) the error is
recorded and `cancel` is invoked — which, as written, immediately
overwrites the just-recorded error (line 253 followed by line 254
against lines 72-75). A 416 response or an unexpected exception records
an error and cancels at once. -/
def download_segment (segmentIndex retries : Nat) (outcomes : List AttemptOutcome)
    (currentTry : Nat) (s : JobState) : JobState :=
  match outcomes with
  | [] => s
  | o :: rest =>
    if retries ≤ currentTry ∨ s.cancelled then s
    else
      match o with
      | .ok => s
      | .retryable detail =>
          let nextTry := currentTry + 1
          if retries ≤ nextTry then
            cancel { s with error := some (segment_fail_msg segmentIndex nextTry retries detail) }
          else download_segment segmentIndex retries rest nextTry s
      | .rangeNotSatisfiable detail =>
          cancel { s with error := some ("Segment " ++ toString segmentIndex ++ " failed: "
            ++ detail ++ " (Range Not Satisfiable - Server Issue?)") }
      | .critical detail =>
          cancel { s with error := some ("Segment " ++ toString segmentIndex
            ++ " critical error: " ++ detail) }

/-- C1: code-bug evaluation. A job in which exactly one segment worker
exhausts its 3 retryable attempts (no user cancellation): the shared
state ends cancelled with the error overwritten to
"Download cancelled by user" (the segment error assigned at line 253 is
clobbered by `cancel` at line 254), so the terminal step emits status
"cancelled" — not "failed" — and the default message instead of the
failing segment's error. The temp directory and output file are
nevertheless both removed, as the claim states. -/
theorem C1_retry_exhaustion_ends_cancelled :
    download_segment 0 3
        [.retryable "Connection reset", .retryable "Connection reset", .retryable "Connection reset"]
        0 { cancelled := false, error := none }
      = { cancelled := true, error := some "Download cancelled by user" } ∧
    final_status false true = "cancelled" ∧
    (finalize_download false true 0 (100 * 1024 * 1024) (some "Download cancelled by user")
        "Multi (4)" { tempDirExists := true, outputFileExists := false }).1
      = { tempDirExists := false, outputFileExists := false } ∧
    (finalize_download false true 0 (100 * 1024 * 1024) (some "Download cancelled by user")
        "Multi (4)" { tempDirExists := true, outputFileExists := false }).2.status
      = "cancelled" := by
  refine ⟨?_, rfl, rfl, rfl⟩
  decide

end Civicomfy
